/-
  Verification of the marketplace-listing generator core logic:
  confidence scoring, description merging, user-input validation,
  product enrichment and emoji insertion.

  The definitions below are a shallow embedding of the TypeScript
  source.  String enums (ConfidenceLevel, ProductCondition, the visual
  quality fields) are modelled as Lean String values with named
  constants, numbers as Int / Rat with explicit clamping and JS-style
  rounding, and JS truthiness of optional strings / arrays is made
  explicit through small helper functions.
-/
import Mathlib

/-- JS truthiness of an optional string: present and non-empty. -/
def truthyS : Option String → Bool
  | none => false
  | some s => !s.isEmpty

/-- Does the character list start with the given needle? -/
def charsStartWith : List Char → List Char → Bool
  | [], _ => true
  | _ :: _, [] => false
  | n :: ns, h :: hs => n == h && charsStartWith ns hs

/-- Does the character list contain the needle as a contiguous segment? -/
def charsContain (needle : List Char) : List Char → Bool
  | [] => charsStartWith needle []
  | h :: t => charsStartWith needle (h :: t) || charsContain needle t

/-- Model of the JS `String.prototype.includes` substring test. -/
def strContains (hay needle : String) : Bool :=
  charsContain needle.data hay.data

/-- Model of the JS whitespace class used by `trim`, `split(/\s+/)` and
regex `\s`: ASCII whitespace plus the common Unicode space characters. -/
def isJsWhitespace (c : Char) : Bool :=
  c == ' ' || c == '\t' || c == '\n' || c == '\r' ||
  c == '\x0b' || c == '\x0c' || c == ' ' || c == ' ' || c == ' '

/-- Model of JS `String.prototype.trim`. -/
def jsTrim (s : String) : String :=
  String.mk (((s.data.dropWhile isJsWhitespace).reverse.dropWhile isJsWhitespace).reverse)

/-- Numeric value of a leading decimal digit run; `none` when there is no digit
(mirrors the NaN result of JS `parseInt`). -/
def jsDigitsVal (cs : List Char) : Option Nat :=
  let ds := cs.takeWhile Char.isDigit
  if ds.isEmpty then none
  else some (ds.foldl (fun n c => n * 10 + (c.toNat - '0'.toNat)) 0)

/-- Model of JS `parseInt(s, 10)`: skip leading whitespace, optional sign,
then a decimal digit run; `none` models NaN. -/
def jsParseInt (s : String) : Option Int :=
  let cs := s.data.dropWhile isJsWhitespace
  match cs with
  | '-' :: rest => (jsDigitsVal rest).map (fun n => -(n : Int))
  | '+' :: rest => (jsDigitsVal rest).map (fun n => (n : Int))
  | _ => (jsDigitsVal cs).map (fun n => (n : Int))

/-- Model of JS `Math.round`: round half toward positive infinity. -/
def jsRound (q : ℚ) : Int := ⌊q + 1 / 2⌋

/-- De-duplication keeping the first occurrence, as produced by
spreading a JS `Set` built from a list (insertion order is kept). -/
def dedupFirstAux (seen : List String) : List String → List String
  | [] => []
  | x :: xs =>
    if x ∈ seen then dedupFirstAux seen xs
    else x :: dedupFirstAux (x :: seen) xs

/-- `[...new Set(l)]` in JS. -/
def dedupFirst (l : List String) : List String := dedupFirstAux [] l

/-- Spec-side description of keyword de-duplication, written from the
claim: keep the first occurrence of each keyword, in first-occurrence
order.  The head is its own first occurrence; its later duplicates are
removed before recursing.  Defined independently of `dedupFirstAux`. -/
def keepFirstOccurrence : List String → List String
  | [] => []
  | x :: xs => x :: keepFirstOccurrence (xs.filter (fun y => y ≠ x))
termination_by l => l.length
decreasing_by
  simp only [List.length_cons]
  exact Nat.lt_succ_of_le (List.length_filter_le _ _)

/-- JS object spread `{...base, ...upd}` over string-keyed records
modelled as association lists: keys of `base` keep their position but take
the updated value, new keys of `upd` are appended. -/
def objSpread (base upd : List (String × String)) : List (String × String) :=
  (base.map (fun kv =>
    match upd.lookup kv.1 with
    | some v => (kv.1, v)
    | none => kv))
  ++ upd.filter (fun kv => (base.lookup kv.1).isNone)

/-! ## Data model (src/types/productAnalysis.ts)

The TS `ConfidenceLevel` and `ProductCondition` string enums are modelled
as `String` constants, matching their runtime representation. -/

namespace ConfidenceLevel

def HIGH : String := "high"

def MEDIUM : String := "medium"

def LOW : String := "low"

end ConfidenceLevel

namespace ProductCondition

def NEW : String := "new"

def LIKE_NEW : String := "like_new"

def EXCELLENT : String := "excellent"

def GOOD : String := "good"

def FAIR : String := "fair"

def POOR : String := "poor"

def FOR_PARTS : String := "for_parts"

def UNKNOWN : String := "unknown"

end ProductCondition

/-- The runtime values of the `ProductCondition` enum, in declaration order
(`Object.values(ProductCondition)`). -/
def productConditionValues : List String :=
  [ProductCondition.NEW, ProductCondition.LIKE_NEW, ProductCondition.EXCELLENT,
   ProductCondition.GOOD, ProductCondition.FAIR, ProductCondition.POOR,
   ProductCondition.FOR_PARTS, ProductCondition.UNKNOWN]

structure ProductCategory where
  primary : String
  secondary : Option String
  tertiary : Option String
  confidence : String
  deriving DecidableEq

structure BrandIdentification where
  name : String
  confidence : String
  verified : Bool
  deriving DecidableEq

structure ProductDimensions where
  width : Option String
  height : Option String
  depth : Option String
  deriving DecidableEq

structure ProductAttributes where
  color : Option (List String)
  material : Option (List String)
  size : Option String
  style : Option String
  model : Option String
  year : Option String
  dimensions : Option ProductDimensions
  weight : Option String
  customAttributes : Option (List (String × String))
  deriving DecidableEq

structure ExtractedText where
  text : String
  location : Option String
  confidence : String
  deriving DecidableEq

structure VisualQuality where
  imageQuality : String
  lighting : String
  clarity : String
  background : String
  recommendations : Option (List String)
  deriving DecidableEq

structure DetectedDefects where
  scratches : Bool
  dents : Bool
  stains : Bool
  tears : Bool
  missingParts : Bool
  wear : Bool
  description : Option String
  severity : Option String
  deriving DecidableEq

structure ProductAnalysis where
  productType : String
  category : ProductCategory
  brand : Option BrandIdentification
  condition : String
  conditionConfidence : String
  attributes : ProductAttributes
  extractedText : List ExtractedText
  features : List String
  defects : Option DetectedDefects
  visualQuality : VisualQuality
  description : String
  suggestedTitle : String
  suggestedKeywords : List String
  overallConfidence : String
  analysisTimestamp : Nat
  deriving DecidableEq

structure UserProvidedDetails where
  condition : Option String := none
  brand : Option String := none
  model : Option String := none
  productType : Option String := none
  description : Option String := none
  color : Option (List String) := none
  material : Option (List String) := none
  size : Option String := none
  year : Option String := none
  categorySpecificDetails : Option (List (String × String)) := none
  notes : Option String := none
  customTitle : Option String := none
  customKeywords : Option (List String) := none
  deriving DecidableEq

/-! ## Confidence scoring (src/utils/confidenceScoring.ts) -/

structure AttributeConfidence where
  productType : Int
  category : Int
  brand : Int
  condition : Int
  attributes : Int
  visualQuality : Int
  overall : Int
  deriving DecidableEq

/-- Convert a ConfidenceLevel value to a numeric score; the default branch
of the switch returns 30 for any unrecognized label. -/
def confidenceLevelToScore (level : String) : Int :=
  if level = ConfidenceLevel.HIGH then 85
  else if level = ConfidenceLevel.MEDIUM then 60
  else if level = ConfidenceLevel.LOW then 30
  else 30

/-- Convert a numeric score back to a ConfidenceLevel value. -/
def scoreToConfidenceLevel (score : Int) : String :=
  if score >= 75 then ConfidenceLevel.HIGH
  else if score >= 50 then ConfidenceLevel.MEDIUM
  else ConfidenceLevel.LOW

/-- Clamp used by every per-attribute scorer: `Math.min(100, Math.max(0, s))`. -/
def clampScore (s : Int) : Int := min 100 (max 0 s)

def calculateProductTypeConfidence (analysis : ProductAnalysis) : Int :=
  let s0 := confidenceLevelToScore analysis.category.confidence
  let s1 := if (analysis.brand.map (fun b => b.verified)).getD false then s0 + 10 else s0
  let s2 := if truthyS analysis.attributes.model then s1 + 5 else s1
  let s3 :=
    if strContains analysis.productType.toLower "unknown" ||
       strContains analysis.productType.toLower "generic" then s2 - 20 else s2
  clampScore s3

def calculateCategoryConfidence (analysis : ProductAnalysis) : Int :=
  let s0 := confidenceLevelToScore analysis.category.confidence
  let s1 := if truthyS analysis.category.secondary then s0 + 5 else s0
  let s2 := if truthyS analysis.category.tertiary then s1 + 5 else s1
  let hasRelevantText := analysis.extractedText.any
    (fun t => strContains t.text.toLower analysis.category.primary.toLower)
  let s3 := if hasRelevantText then s2 + 10 else s2
  clampScore s3

def calculateBrandConfidence (analysis : ProductAnalysis) : Int :=
  match analysis.brand with
  | none => 0
  | some b =>
    let s0 := confidenceLevelToScore b.confidence
    let s1 := if b.verified then s0 + 20 else s0
    let brandInText := analysis.extractedText.any
      (fun t => strContains t.text.toLower b.name.toLower)
    let s2 := if brandInText then s1 + 15 else s1
    clampScore s2

def calculateConditionConfidence (analysis : ProductAnalysis) : Int :=
  let s0 := confidenceLevelToScore analysis.conditionConfidence
  if analysis.condition = ProductCondition.UNKNOWN then min s0 20
  else
    let s1 :=
      if analysis.visualQuality.imageQuality = "excellent" then s0 + 15
      else if analysis.visualQuality.imageQuality = "good" then s0 + 10
      else s0
    let s2 := if analysis.visualQuality.clarity = "sharp" then s1 + 10 else s1
    let s3 := if analysis.visualQuality.imageQuality = "poor" then s2 - 20 else s2
    let s4 :=
      if (analysis.defects.map (fun d => truthyS d.description)).getD false then s3 + 5
      else s3
    clampScore s4

def calculateAttributesConfidence (analysis : ProductAnalysis) : Int :=
  let attrs := analysis.attributes
  let attributeCount : Int :=
    (if attrs.color.isSome && (attrs.color.getD []).length > 0 then 1 else 0) +
    (if attrs.material.isSome && (attrs.material.getD []).length > 0 then 1 else 0) +
    (if truthyS attrs.size then 1 else 0) +
    (if truthyS attrs.style then 1 else 0) +
    (if truthyS attrs.model then 1 else 0) +
    (if truthyS attrs.year then 1 else 0) +
    (if attrs.dimensions.isSome then 1 else 0) +
    (if truthyS attrs.weight then 1 else 0)
  let s0 : Int := 50 + attributeCount * 5
  let s1 := if analysis.extractedText.length > 0 then s0 + 10 else s0
  let highConfidenceText := analysis.extractedText.filter
    (fun t => t.confidence = ConfidenceLevel.HIGH)
  let s2 := if highConfidenceText.length > 0 then s1 + 10 else s1
  clampScore s2

def calculateVisualQualityConfidence (analysis : ProductAnalysis) : Int :=
  let s0 : Int := 50
  let s1 :=
    if analysis.visualQuality.imageQuality = "excellent" then s0 + 30
    else if analysis.visualQuality.imageQuality = "good" then s0 + 20
    else if analysis.visualQuality.imageQuality = "fair" then s0 + 10
    else if analysis.visualQuality.imageQuality = "poor" then s0 - 20
    else s0
  let s2 :=
    if analysis.visualQuality.lighting = "good" then s1 + 10
    else if analysis.visualQuality.lighting = "fair" then s1 + 5
    else if analysis.visualQuality.lighting = "poor" then s1 - 15
    else s1
  let s3 :=
    if analysis.visualQuality.clarity = "sharp" then s2 + 10
    else if analysis.visualQuality.clarity = "slightly_blurry" then s2 + 0
    else if analysis.visualQuality.clarity = "blurry" then s2 - 15
    else s2
  let s4 :=
    if analysis.visualQuality.background = "clean" then s3 + 5
    else if analysis.visualQuality.background = "distracting" then s3 - 10
    else s3
  clampScore s4

/-- Weighted overall confidence, rounded with `Math.round`. -/
def calculateOverallConfidence (analysis : ProductAnalysis) : Int :=
  jsRound
    ((calculateProductTypeConfidence analysis : ℚ) * 0.25 +
     (calculateCategoryConfidence analysis : ℚ) * 0.15 +
     (calculateBrandConfidence analysis : ℚ) * 0.15 +
     (calculateConditionConfidence analysis : ℚ) * 0.2 +
     (calculateAttributesConfidence analysis : ℚ) * 0.15 +
     (calculateVisualQualityConfidence analysis : ℚ) * 0.1)

def getConfidenceBreakdown (analysis : ProductAnalysis) : AttributeConfidence :=
  { productType := calculateProductTypeConfidence analysis
    category := calculateCategoryConfidence analysis
    brand := calculateBrandConfidence analysis
    condition := calculateConditionConfidence analysis
    attributes := calculateAttributesConfidence analysis
    visualQuality := calculateVisualQualityConfidence analysis
    overall := calculateOverallConfidence analysis }

def getConfidenceRecommendations (analysis : ProductAnalysis) : List String :=
  let breakdown := getConfidenceBreakdown analysis
  (if breakdown.visualQuality < 50 then
    (if analysis.visualQuality.imageQuality = "poor" then
      ["Upload higher quality images for better analysis accuracy"] else []) ++
    (if analysis.visualQuality.lighting = "poor" then
      ["Use better lighting when photographing the product"] else []) ++
    (if analysis.visualQuality.clarity = "blurry" then
      ["Ensure images are in focus and not blurry for better recognition"] else []) ++
    (if analysis.visualQuality.background ≠ "clean" then
      ["Use a clean, uncluttered background to improve product identification"] else [])
   else []) ++
  (if breakdown.productType < 60 then
    ["Consider providing additional details about the product type manually"] else []) ++
  (if breakdown.brand < 60 then
    ["If the brand is known, provide it manually to improve accuracy"] else []) ++
  (if breakdown.condition < 60 then
    ["Provide detailed condition information for more accurate listings"] else []) ++
  (if breakdown.attributes < 50 then
    ["Add missing product attributes (color, size, model, etc.) manually"] else []) ++
  (match analysis.visualQuality.recommendations with
   | some recs => if recs.length > 0 then recs else []
   | none => [])

/-! ## Description merger (src/services/descriptionMerger.ts) -/

structure MergeOptions where
  prioritizeUser : Option Bool := none
  validateCompleteness : Option Bool := none
  enhanceDescription : Option Bool := none
  deriving DecidableEq

/-- Provenance of a merged field. -/
inductive DataSource where
  | ai
  | user
  | merged
  deriving DecidableEq

structure DataSources where
  productType : DataSource
  brand : DataSource
  condition : DataSource
  attributes : DataSource
  description : DataSource
  title : DataSource
  deriving DecidableEq

structure ValidationStatus where
  isComplete : Bool
  missingFields : List String
  warnings : List String
  deriving DecidableEq

/-- MergedProductData extends ProductAnalysis with provenance, the original
user details and a validation status. -/
structure MergedProductData where
  productType : String
  category : ProductCategory
  brand : Option BrandIdentification
  condition : String
  conditionConfidence : String
  attributes : ProductAttributes
  extractedText : List ExtractedText
  features : List String
  defects : Option DetectedDefects
  visualQuality : VisualQuality
  description : String
  suggestedTitle : String
  suggestedKeywords : List String
  overallConfidence : String
  analysisTimestamp : Nat
  dataSources : DataSources
  userProvidedDetails : Option UserProvidedDetails
  validationStatus : ValidationStatus
  deriving DecidableEq

/-- The ProductAnalysis part of a MergedProductData (TS uses structural
subtyping; `validateProductData` reads only these fields). -/
def MergedProductData.toProductAnalysis (m : MergedProductData) : ProductAnalysis :=
  { productType := m.productType, category := m.category, brand := m.brand
    condition := m.condition, conditionConfidence := m.conditionConfidence
    attributes := m.attributes, extractedText := m.extractedText
    features := m.features, defects := m.defects, visualQuality := m.visualQuality
    description := m.description, suggestedTitle := m.suggestedTitle
    suggestedKeywords := m.suggestedKeywords, overallConfidence := m.overallConfidence
    analysisTimestamp := m.analysisTimestamp }

/-- Validate product data for completeness. -/
def validateProductData (data : ProductAnalysis) : ValidationStatus :=
  let missingFields :=
    (if !truthyS (some data.productType) || data.productType = "Unknown Product" then
      ["productType"] else []) ++
    (if !truthyS (some data.condition) || data.condition = ProductCondition.UNKNOWN then
      ["condition"] else []) ++
    (if data.category.primary = "Unknown" then ["category"] else [])
  let warnings :=
    (if data.overallConfidence = ConfidenceLevel.LOW then
      ["Overall AI confidence is low - consider reviewing results"] else []) ++
    (if data.conditionConfidence = ConfidenceLevel.LOW then
      ["Condition assessment confidence is low"] else []) ++
    (if data.category.confidence = ConfidenceLevel.LOW then
      ["Category classification confidence is low"] else []) ++
    (if data.brand.isNone then
      ["Brand not identified - consider adding manually"] else []) ++
    (if data.attributes.color.isNone || (data.attributes.color.getD []).length = 0 then
      ["Color not identified"] else []) ++
    (if data.visualQuality.imageQuality = "poor" then
      ["Image quality is poor - consider uploading better photos"] else []) ++
    (if data.visualQuality.background = "cluttered" ||
        data.visualQuality.background = "distracting" then
      ["Background is distracting - cleaner photos may improve analysis"] else [])
  { isComplete := missingFields.isEmpty
    missingFields := missingFields
    warnings := warnings }

/-- Merge AI analysis with user-provided details. -/
def mergeProductData (aiAnalysis : ProductAnalysis)
    (userDetails : UserProvidedDetails := {}) (options : MergeOptions := {}) :
    MergedProductData :=
  let prioritizeUser := options.prioritizeUser.getD true
  let validateCompleteness := options.validateCompleteness.getD true
  let enhanceDescription := options.enhanceDescription.getD true
  let productType :=
    if prioritizeUser && truthyS userDetails.productType then userDetails.productType.getD ""
    else aiAnalysis.productType
  let dsProductType :=
    if truthyS userDetails.productType then
      (if prioritizeUser then DataSource.user else DataSource.merged)
    else DataSource.ai
  let brand :=
    if prioritizeUser && truthyS userDetails.brand then
      some { name := userDetails.brand.getD "", confidence := ConfidenceLevel.HIGH,
             verified := true }
    else if !prioritizeUser && truthyS userDetails.brand && aiAnalysis.brand.isSome then
      some { name := userDetails.brand.getD "", confidence := ConfidenceLevel.HIGH,
             verified := true }
    else aiAnalysis.brand
  let dsBrand :=
    if prioritizeUser && truthyS userDetails.brand then DataSource.user
    else if !prioritizeUser && truthyS userDetails.brand && aiAnalysis.brand.isSome then
      DataSource.merged
    else DataSource.ai
  let condition :=
    if prioritizeUser && truthyS userDetails.condition then userDetails.condition.getD ""
    else aiAnalysis.condition
  let conditionConfidence :=
    if prioritizeUser && truthyS userDetails.condition then ConfidenceLevel.HIGH
    else aiAnalysis.conditionConfidence
  let dsCondition :=
    if truthyS userDetails.condition then
      (if prioritizeUser then DataSource.user else DataSource.merged)
    else DataSource.ai
  let attrs0 := aiAnalysis.attributes
  let colorHit := userDetails.color.isSome && (userDetails.color.getD []).length > 0
  let attrs1 := if colorHit then { attrs0 with color := some (userDetails.color.getD []) }
    else attrs0
  let materialHit := userDetails.material.isSome && (userDetails.material.getD []).length > 0
  let attrs2 :=
    if materialHit then { attrs1 with material := some (userDetails.material.getD []) }
    else attrs1
  let attrs3 := if truthyS userDetails.size then { attrs2 with size := userDetails.size }
    else attrs2
  let attrs4 := if truthyS userDetails.year then { attrs3 with year := userDetails.year }
    else attrs3
  let attrs5 := if truthyS userDetails.model then { attrs4 with model := userDetails.model }
    else attrs4
  let mergedCustom :=
    some (objSpread (attrs5.customAttributes.getD [])
      (userDetails.categorySpecificDetails.getD []))
  let attrs6 :=
    if userDetails.categorySpecificDetails.isSome then
      { attrs5 with customAttributes := mergedCustom }
    else attrs5
  let dsAttributes :=
    if colorHit || materialHit || truthyS userDetails.size || truthyS userDetails.year ||
       truthyS userDetails.model || userDetails.categorySpecificDetails.isSome then
      DataSource.merged
    else DataSource.ai
  let description :=
    if prioritizeUser && truthyS userDetails.description then userDetails.description.getD ""
    else if enhanceDescription && truthyS userDetails.description then
      userDetails.description.getD "" ++ "\n\n" ++ aiAnalysis.description
    else aiAnalysis.description
  let dsDescription :=
    if prioritizeUser && truthyS userDetails.description then DataSource.user
    else if enhanceDescription && truthyS userDetails.description then DataSource.merged
    else DataSource.ai
  let suggestedTitle :=
    if prioritizeUser && truthyS userDetails.customTitle then userDetails.customTitle.getD ""
    else aiAnalysis.suggestedTitle
  let dsTitle :=
    if prioritizeUser && truthyS userDetails.customTitle then DataSource.user
    else if !prioritizeUser && truthyS userDetails.customTitle &&
            truthyS (some aiAnalysis.suggestedTitle) then DataSource.merged
    else DataSource.ai
  let suggestedKeywords :=
    dedupFirst (aiAnalysis.suggestedKeywords ++ userDetails.customKeywords.getD [])
  let mergedData : MergedProductData :=
    { productType := productType
      category := aiAnalysis.category
      brand := brand
      condition := condition
      conditionConfidence := conditionConfidence
      attributes := attrs6
      extractedText := aiAnalysis.extractedText
      features := aiAnalysis.features
      defects := aiAnalysis.defects
      visualQuality := aiAnalysis.visualQuality
      description := description
      suggestedTitle := suggestedTitle
      suggestedKeywords := suggestedKeywords
      overallConfidence := aiAnalysis.overallConfidence
      analysisTimestamp := aiAnalysis.analysisTimestamp
      dataSources :=
        { productType := dsProductType, brand := dsBrand, condition := dsCondition
          attributes := dsAttributes, description := dsDescription, title := dsTitle }
      userProvidedDetails := some userDetails
      validationStatus := { isComplete := false, missingFields := [], warnings := [] } }
  if validateCompleteness then
    { mergedData with validationStatus := validateProductData mergedData.toProductAnalysis }
  else mergedData

structure ValidationResult where
  valid : Bool
  errors : List String
  deriving DecidableEq

/-- Validate user-provided details.  `currentYear` stands for
`new Date().getFullYear()`. -/
def validateUserInput (currentYear : Int) (details : UserProvidedDetails) :
    ValidationResult :=
  let errors :=
    (if truthyS details.condition &&
        !(productConditionValues.contains (details.condition.getD "")) then
      ["Invalid condition value. Must be one of: " ++
        String.intercalate ", " productConditionValues]
     else []) ++
    (if truthyS details.brand && (details.brand.getD "").length > 100 then
      ["Brand name must be 100 characters or less"] else []) ++
    (if truthyS details.model && (details.model.getD "").length > 100 then
      ["Model must be 100 characters or less"] else []) ++
    (if truthyS details.productType && (details.productType.getD "").length > 200 then
      ["Product type must be 200 characters or less"] else []) ++
    (if truthyS details.description && (details.description.getD "").length > 5000 then
      ["Description must be 5000 characters or less"] else []) ++
    (if truthyS details.customTitle && (details.customTitle.getD "").length > 200 then
      ["Custom title must be 200 characters or less"] else []) ++
    (if truthyS details.year then
      match jsParseInt (details.year.getD "") with
      | none =>
        ["Invalid year. Must be between 1800 and " ++ toString (currentYear + 1)]
      | some yearNum =>
        if yearNum < 1800 || yearNum > currentYear + 1 then
          ["Invalid year. Must be between 1800 and " ++ toString (currentYear + 1)]
        else []
     else []) ++
    (if details.color.isSome && (details.color.getD []).length > 10 then
      ["Maximum 10 colors allowed"] else []) ++
    (if details.material.isSome && (details.material.getD []).length > 10 then
      ["Maximum 10 materials allowed"] else []) ++
    (if details.customKeywords.isSome && (details.customKeywords.getD []).length > 20 then
      ["Maximum 20 custom keywords allowed"] else [])
  { valid := errors.isEmpty, errors := errors }

/-! ## Product enrichment (src/services/productEnrichment.ts)

The in-memory product cache (a JS `Map`) is modelled as an association
list from key to entry, passed explicitly. -/

structure ProductDatabaseEntry where
  upc : Option String := none
  ean : Option String := none
  isbn : Option String := none
  asin : Option String := none
  productName : String
  brand : String
  category : String
  manufacturer : Option String := none
  model : Option String := none
  attributes : Option (List (String × String)) := none
  lastUpdated : Nat := 0
  deriving DecidableEq

structure EnrichmentData where
  confidenceScores : AttributeConfidence
  recommendations : List String
  completenessScore : Int
  missingCriticalInfo : List String
  databaseMatch : Option ProductDatabaseEntry
  sentimentScore : Option ℚ
  deriving DecidableEq

structure EnrichedProductAnalysis where
  productType : String
  category : ProductCategory
  brand : Option BrandIdentification
  condition : String
  conditionConfidence : String
  attributes : ProductAttributes
  extractedText : List ExtractedText
  features : List String
  defects : Option DetectedDefects
  visualQuality : VisualQuality
  description : String
  suggestedTitle : String
  suggestedKeywords : List String
  overallConfidence : String
  analysisTimestamp : Nat
  enrichmentData : EnrichmentData
  deriving DecidableEq

structure EnrichmentOptions where
  enableDatabaseLookup : Option Bool := none
  enableSentimentAnalysis : Option Bool := none
  enableCompletenessCheck : Option Bool := none
  requireMinimumConfidence : Option Int := none
  deriving DecidableEq

/-- Regex `\w`: ASCII letters, digits and the underscore. -/
def isWordChar (c : Char) : Bool := c.isAlphanum || c == '_'

/-- First match of the regex `\b\d{12,13}\b` scanning left to right:
at each position whose preceding character (if any) is a non-word
character, a maximal digit run of length 12 or 13 followed by a non-word
character or the end of the string matches. -/
def upcScan : Option Char → List Char → Option (List Char)
  | prev, cs =>
    let boundaryOk := match prev with
      | none => true
      | some c => !isWordChar c
    let run := cs.takeWhile Char.isDigit
    let next := (cs.drop run.length).head?
    let nextOk := match next with
      | none => true
      | some c => !isWordChar c
    if boundaryOk && (run.length == 12 || run.length == 13) && nextOk then some run
    else match cs with
      | [] => none
      | c :: rest => upcScan (some c) rest

/-- Extract a UPC/EAN-shaped token from the first text that contains one. -/
def extractUPC : List String → Option String
  | [] => none
  | t :: rest =>
    match upcScan none t.data with
    | some m => some (String.mk m)
    | none => extractUPC rest

def lookupProductInDatabase (cache : List (String × ProductDatabaseEntry))
    (analysis : ProductAnalysis) : Option ProductDatabaseEntry :=
  let byUpc := (extractUPC (analysis.extractedText.map (fun t => t.text))).bind
    (fun upc => cache.lookup upc)
  match byUpc with
  | some cached => some cached
  | none =>
    if analysis.brand.isSome && truthyS analysis.attributes.model then
      cache.lookup ((analysis.brand.map (fun b => b.name)).getD "" ++ ":" ++
        analysis.attributes.model.getD "")
    else none

def positiveKeywords : List String :=
  ["excellent", "perfect", "pristine", "mint", "flawless", "new", "unused",
   "original", "warranty", "certified"]

def negativeKeywords : List String :=
  ["damage", "broken", "worn", "scratched", "dented", "stained", "missing",
   "defect", "crack", "chip"]

/-- Sentiment score of the condition, defects and description, clamped to
[-1, 1].  Numeric literals are modelled as exact rationals. -/
def analyzeSentiment (analysis : ProductAnalysis) : ℚ :=
  let s0 : ℚ :=
    if analysis.condition = ProductCondition.NEW then 1
    else if analysis.condition = ProductCondition.LIKE_NEW then 0.8
    else if analysis.condition = ProductCondition.EXCELLENT then 0.6
    else if analysis.condition = ProductCondition.GOOD then 0.4
    else if analysis.condition = ProductCondition.FAIR then 0.2
    else if analysis.condition = ProductCondition.POOR then -0.4
    else if analysis.condition = ProductCondition.FOR_PARTS then -0.8
    else 0
  let s1 :=
    match analysis.defects with
    | none => s0
    | some d =>
      let defectCount : ℚ :=
        ([d.scratches, d.dents, d.stains, d.tears, d.missingParts, d.wear].filter
          (fun b => b)).length
      let t0 := s0 - defectCount * 0.1
      if d.severity = some "severe" then t0 - 0.3
      else if d.severity = some "moderate" then t0 - 0.15
      else if d.severity = some "minor" then t0 - 0.05
      else t0
  let desc := analysis.description.toLower
  let s2 := s1 + 0.05 * ((positiveKeywords.filter (fun k => strContains desc k)).length : ℚ)
  let s3 := s2 - 0.05 * ((negativeKeywords.filter (fun k => strContains desc k)).length : ℚ)
  max (-1) (min 1 s3)

structure CompletenessResult where
  completenessScore : Int
  missingCriticalInfo : List String
  deriving DecidableEq

/-- A critical field value passes when it is truthy and none of the
placeholder sentinels. -/
def criticalFieldOk (s : String) : Bool :=
  !s.isEmpty && s ≠ ProductCondition.UNKNOWN && s ≠ "Unknown" && s ≠ "Unknown Product"

/-- An optional string-valued field passes when present and non-empty. -/
def optionalStrOk (v : Option String) : Bool :=
  truthyS v

/-- An optional array-valued field passes when present and non-empty. -/
def optionalArrOk (v : Option (List String)) : Bool :=
  v.isSome && (v.getD []).length > 0

/-- Weighted completeness check; weights are exact rationals and the final
score is `Math.round(completed / total * 100)`. -/
def checkCompleteness (analysis : ProductAnalysis) : CompletenessResult :=
  let criticalList : List (String × Bool × ℚ) :=
    [("productType", criticalFieldOk analysis.productType, 3),
     ("condition", criticalFieldOk analysis.condition, 3),
     ("category", criticalFieldOk analysis.category.primary, 2),
     ("description", decide (analysis.description.length > 20), 2),
     ("suggestedTitle", criticalFieldOk analysis.suggestedTitle, 2)]
  let optionalList : List (String × Bool × ℚ) :=
    [("brand", optionalStrOk (analysis.brand.map (fun b => b.name)), 1.5),
     ("color", optionalArrOk analysis.attributes.color, 1),
     ("model", optionalStrOk analysis.attributes.model, 1.5),
     ("size", optionalStrOk analysis.attributes.size, 1),
     ("material", optionalArrOk analysis.attributes.material, 1)]
  let afterCritical :=
    criticalList.foldl
      (fun (acc : ℚ × ℚ × List String) f =>
        let (total, completed, missing) := acc
        if f.2.1 then (total + f.2.2, completed + f.2.2, missing)
        else (total + f.2.2, completed, missing ++ [f.1]))
      (0, 0, [])
  let afterOptional :=
    optionalList.foldl
      (fun (acc : ℚ × ℚ × List String) f =>
        let (total, completed, missing) := acc
        if f.2.1 then (total + f.2.2, completed + f.2.2, missing)
        else if missing.contains f.1 then (total + f.2.2, completed, missing)
        else (total + f.2.2, completed, missing ++ [f.1]))
      afterCritical
  let (total0, completed0, missing) := afterOptional
  let total1 := total0 + 1
  let completed1 :=
    if analysis.visualQuality.imageQuality = "excellent" ||
       analysis.visualQuality.imageQuality = "good" then completed0 + 1
    else completed0
  let total2 := total1 + 1
  let completed2 := if analysis.features.length > 0 then completed1 + 1 else completed1
  { completenessScore := jsRound (completed2 / total2 * 100)
    missingCriticalInfo := missing }

/-- Enrich a product analysis.  The `await` on the in-memory lookup is a
plain sequential call; the cache is the explicit `cache` argument. -/
def enrichProductAnalysis (cache : List (String × ProductDatabaseEntry))
    (analysis : ProductAnalysis) (options : EnrichmentOptions := {}) :
    EnrichedProductAnalysis :=
  let enableDatabaseLookup := options.enableDatabaseLookup.getD true
  let enableSentimentAnalysis := options.enableSentimentAnalysis.getD true
  let enableCompletenessCheck := options.enableCompletenessCheck.getD true
  let confidenceScores := getConfidenceBreakdown analysis
  let recommendations0 := getConfidenceRecommendations analysis
  let databaseMatch :=
    if enableDatabaseLookup then lookupProductInDatabase cache analysis else none
  let recommendations :=
    match databaseMatch with
    | some m => recommendations0 ++ ["Product matched in database: " ++ m.productName]
    | none => recommendations0
  let sentimentScore :=
    if enableSentimentAnalysis then some (analyzeSentiment analysis) else none
  let comp :=
    if enableCompletenessCheck then checkCompleteness analysis
    else { completenessScore := 100, missingCriticalInfo := [] }
  { productType := analysis.productType
    category := analysis.category
    brand := analysis.brand
    condition := analysis.condition
    conditionConfidence := analysis.conditionConfidence
    attributes := analysis.attributes
    extractedText := analysis.extractedText
    features := analysis.features
    defects := analysis.defects
    visualQuality := analysis.visualQuality
    description := analysis.description
    suggestedTitle := analysis.suggestedTitle
    suggestedKeywords := analysis.suggestedKeywords
    overallConfidence := analysis.overallConfidence
    analysisTimestamp := analysis.analysisTimestamp
    enrichmentData :=
      { confidenceScores := confidenceScores
        recommendations := recommendations
        completenessScore := comp.completenessScore
        missingCriticalInfo := comp.missingCriticalInfo
        databaseMatch := databaseMatch
        sentimentScore := sentimentScore } }

/-! ## Post formatter: emoji insertion (src/utils/postFormatter.ts)

`text.split(/([.!?]+\s+)/)` with a capturing group: the string is cut at
every maximal run of sentence punctuation followed by at least one
whitespace character, and the captured separator (punctuation run plus
whitespace run) appears in the result between the surrounding pieces.
The split is modelled by a three-state scanner over the characters. -/

def isSentencePunct (c : Char) : Bool := c == '.' || c == '!' || c == '?'

/-- Scanner state: collecting plain text, inside a punctuation run, or
inside the whitespace following a punctuation run. -/
inductive SplitState where
  | inText : List Char → SplitState
  | inPunct : List Char → List Char → SplitState
  | inWs : List Char → List Char → List Char → SplitState

/-- One scanner step: segments emitted by this character, and the next state. -/
def splitStep : SplitState → Char → List (List Char) × SplitState
  | SplitState.inText cur, c =>
    if isSentencePunct c then ([], SplitState.inPunct cur [c])
    else ([], SplitState.inText (cur ++ [c]))
  | SplitState.inPunct cur p, c =>
    if isSentencePunct c then ([], SplitState.inPunct cur (p ++ [c]))
    else if isJsWhitespace c then ([], SplitState.inWs cur p [c])
    else ([], SplitState.inText (cur ++ p ++ [c]))
  | SplitState.inWs cur p w, c =>
    if isJsWhitespace c then ([], SplitState.inWs cur p (w ++ [c]))
    else if isSentencePunct c then ([cur, p ++ w], SplitState.inPunct [] [c])
    else ([cur, p ++ w], SplitState.inText [c])

/-- Segments emitted at the end of the input. -/
def splitFinish : SplitState → List (List Char)
  | SplitState.inText cur => [cur]
  | SplitState.inPunct cur p => [cur ++ p]
  | SplitState.inWs cur p w => [cur, p ++ w, []]

def splitRun : SplitState → List Char → List (List Char)
  | st, [] => splitFinish st
  | st, c :: rest =>
    let step := splitStep st c
    step.1 ++ splitRun step.2 rest

/-- The sentence segments of a text, separators included, exactly as
produced by `text.split(/([.!?]+\s+)/)`. -/
def sentenceSplit (text : String) : List String :=
  (splitRun (SplitState.inText []) text.data).map String.mk

/-- The `forEach` loop of the distributed strategy: append each sentence,
and after a sentence whose positive index is a multiple of the interval
append the next unused emoji.  With `interval = 0` the JS test
`index % 0 === 0` compares NaN and never fires; for the positive indices
reached here `index % 0 = index ≠ 0` in Lean, which agrees. -/
def distAux (emojis : List String) (interval : Nat) :
    List String → Nat → Nat → String
  | [], _, _ => ""
  | s :: rest, index, emojiIndex =>
    if emojiIndex < emojis.length ∧ 0 < index ∧ index % interval = 0 then
      s ++ (" " ++ emojis.getD emojiIndex "") ++ distAux emojis interval rest (index + 1) (emojiIndex + 1)
    else
      s ++ distAux emojis interval rest (index + 1) emojiIndex

/-- The three insertion strategies of `insertEmojis`. -/
inductive InsertStrategy where
  | atStart
  | atEnd
  | distributed
  deriving DecidableEq

/-- Insert emojis into text at appropriate positions. -/
def insertEmojis (text : String) (emojis : List String)
    (strategy : InsertStrategy := InsertStrategy.distributed) : String :=
  if emojis.length = 0 then text
  else
    match strategy with
    | InsertStrategy.atStart => String.intercalate " " emojis ++ " " ++ text
    | InsertStrategy.atEnd => text ++ " " ++ String.intercalate " " emojis
    | InsertStrategy.distributed =>
      let sentences := sentenceSplit text
      let emojiInterval := sentences.length / emojis.length
      jsTrim (distAux emojis emojiInterval sentences 0 0)

/-! ## Sample data used by witnesses and counterexamples -/

/-- A representative, fully populated analysis. -/
def baseAnalysis : ProductAnalysis :=
  { productType := "Apple iPhone 13"
    category := { primary := "Electronics", secondary := some "Smartphones",
                  tertiary := none, confidence := ConfidenceLevel.HIGH }
    brand := some { name := "Apple", confidence := ConfidenceLevel.HIGH, verified := true }
    condition := ProductCondition.GOOD
    conditionConfidence := ConfidenceLevel.MEDIUM
    attributes := { color := some ["Black"], material := none, size := none,
                    style := none, model := some "A2633", year := none,
                    dimensions := none, weight := none, customAttributes := none }
    extractedText := [{ text := "iPhone", location := some "label",
                        confidence := ConfidenceLevel.HIGH }]
    features := ["5G"]
    defects := none
    visualQuality := { imageQuality := "good", lighting := "good", clarity := "sharp",
                       background := "clean", recommendations := none }
    description := "A nice phone in good shape"
    suggestedTitle := "Apple iPhone 13 Black Unlocked Smartphone"
    suggestedKeywords := ["iPhone", "Apple"]
    overallConfidence := ConfidenceLevel.HIGH
    analysisTimestamp := 0 }

/-- The base analysis with an unknown condition. -/
def unknownConditionAnalysis : ProductAnalysis :=
  { baseAnalysis with condition := ProductCondition.UNKNOWN }

/-! ## Helper lemmas -/

theorem clampScore_mem (s : Int) : 0 ≤ clampScore s ∧ clampScore s ≤ 100 := by
  unfold clampScore; omega

theorem confidenceLevelToScore_ge (l : String) : 30 ≤ confidenceLevelToScore l := by
  unfold confidenceLevelToScore
  split
  · norm_num
  · split
    · norm_num
    · split <;> norm_num

theorem calculateProductTypeConfidence_mem (a : ProductAnalysis) :
    0 ≤ calculateProductTypeConfidence a ∧ calculateProductTypeConfidence a ≤ 100 := by
  unfold calculateProductTypeConfidence
  exact clampScore_mem _

theorem calculateCategoryConfidence_mem (a : ProductAnalysis) :
    0 ≤ calculateCategoryConfidence a ∧ calculateCategoryConfidence a ≤ 100 := by
  unfold calculateCategoryConfidence
  exact clampScore_mem _

theorem calculateBrandConfidence_mem (a : ProductAnalysis) :
    0 ≤ calculateBrandConfidence a ∧ calculateBrandConfidence a ≤ 100 := by
  unfold calculateBrandConfidence
  match a.brand with
  | none => norm_num
  | some b => exact clampScore_mem _

theorem calculateConditionConfidence_mem (a : ProductAnalysis) :
    0 ≤ calculateConditionConfidence a ∧ calculateConditionConfidence a ≤ 100 := by
  unfold calculateConditionConfidence
  split
  · have h := confidenceLevelToScore_ge a.conditionConfidence
    exact ⟨le_min (by omega) (by omega), le_trans (min_le_right _ _) (by norm_num)⟩
  · exact clampScore_mem _

theorem calculateAttributesConfidence_mem (a : ProductAnalysis) :
    0 ≤ calculateAttributesConfidence a ∧ calculateAttributesConfidence a ≤ 100 := by
  unfold calculateAttributesConfidence
  exact clampScore_mem _

theorem calculateVisualQualityConfidence_mem (a : ProductAnalysis) :
    0 ≤ calculateVisualQualityConfidence a ∧ calculateVisualQualityConfidence a ≤ 100 := by
  unfold calculateVisualQualityConfidence
  exact clampScore_mem _

theorem conditionConfidence_le_of_unknown (a : ProductAnalysis)
    (h : a.condition = ProductCondition.UNKNOWN) :
    calculateConditionConfidence a ≤ 20 := by
  unfold calculateConditionConfidence
  simp only [h, if_true, reduceIte]
  exact min_le_right _ _

/-! ## Claim theorems -/

/-- Claim C1: for every ProductAnalysis, each of the six per-attribute
confidence scores of the breakdown lies in [0, 100], and whenever the
condition is UNKNOWN the condition score is at most 20. -/
theorem claim_C1_confidence_bounds (a : ProductAnalysis) :
    (0 ≤ (getConfidenceBreakdown a).productType ∧ (getConfidenceBreakdown a).productType ≤ 100) ∧
    (0 ≤ (getConfidenceBreakdown a).category ∧ (getConfidenceBreakdown a).category ≤ 100) ∧
    (0 ≤ (getConfidenceBreakdown a).brand ∧ (getConfidenceBreakdown a).brand ≤ 100) ∧
    (0 ≤ (getConfidenceBreakdown a).condition ∧ (getConfidenceBreakdown a).condition ≤ 100) ∧
    (0 ≤ (getConfidenceBreakdown a).attributes ∧ (getConfidenceBreakdown a).attributes ≤ 100) ∧
    (0 ≤ (getConfidenceBreakdown a).visualQuality ∧
      (getConfidenceBreakdown a).visualQuality ≤ 100) ∧
    (a.condition = ProductCondition.UNKNOWN → (getConfidenceBreakdown a).condition ≤ 20) :=
  ⟨calculateProductTypeConfidence_mem a, calculateCategoryConfidence_mem a,
   calculateBrandConfidence_mem a, calculateConditionConfidence_mem a,
   calculateAttributesConfidence_mem a, calculateVisualQualityConfidence_mem a,
   fun h => conditionConfidence_le_of_unknown a h⟩

/-- Witness for C1 at a concrete analysis with UNKNOWN condition: the
condition score is at most 20 (it evaluates to 20 here). -/
theorem claim_C1_confidence_bounds_witness :
    unknownConditionAnalysis.condition = ProductCondition.UNKNOWN ∧
    (getConfidenceBreakdown unknownConditionAnalysis).condition ≤ 20 :=
  ⟨rfl, (claim_C1_confidence_bounds unknownConditionAnalysis).2.2.2.2.2.2 rfl⟩

/-- Claim C8: round-tripping each confidence label through
`confidenceLevelToScore` and `scoreToConfidenceLevel` is the identity on
HIGH, MEDIUM and LOW, with the mappings HIGH to 85, MEDIUM to 60 and
LOW to 30. -/
theorem claim_C8_level_roundtrip :
    scoreToConfidenceLevel (confidenceLevelToScore ConfidenceLevel.HIGH) =
      ConfidenceLevel.HIGH ∧
    scoreToConfidenceLevel (confidenceLevelToScore ConfidenceLevel.MEDIUM) =
      ConfidenceLevel.MEDIUM ∧
    scoreToConfidenceLevel (confidenceLevelToScore ConfidenceLevel.LOW) =
      ConfidenceLevel.LOW ∧
    confidenceLevelToScore ConfidenceLevel.HIGH = 85 ∧
    confidenceLevelToScore ConfidenceLevel.MEDIUM = 60 ∧
    confidenceLevelToScore ConfidenceLevel.LOW = 30 := by
  refine ⟨?_, ?_, ?_, rfl, rfl, rfl⟩ <;> decide

/-- Claim C2: `calculateOverallConfidence` returns the weighted sum of the
six per-attribute scores with weights 0.25 / 0.15 / 0.15 / 0.20 / 0.15 /
0.10, rounded to the nearest integer: it equals the rounded value of the
single fraction with numerator 25, 15, 15, 20, 15, 10, and it differs from
the exact weighted sum by at most one half. -/
theorem claim_C2_overall_weighted (a : ProductAnalysis) :
    calculateOverallConfidence a =
      jsRound (((25 * calculateProductTypeConfidence a +
        15 * calculateCategoryConfidence a +
        15 * calculateBrandConfidence a +
        20 * calculateConditionConfidence a +
        15 * calculateAttributesConfidence a +
        10 * calculateVisualQualityConfidence a : Int) : ℚ) / 100) ∧
    |(calculateOverallConfidence a : ℚ) -
      ((calculateProductTypeConfidence a : ℚ) * 0.25 +
       (calculateCategoryConfidence a : ℚ) * 0.15 +
       (calculateBrandConfidence a : ℚ) * 0.15 +
       (calculateConditionConfidence a : ℚ) * 0.2 +
       (calculateAttributesConfidence a : ℚ) * 0.15 +
       (calculateVisualQualityConfidence a : ℚ) * 0.1)| ≤ 1 / 2 := by
  constructor
  · unfold calculateOverallConfidence
    congr 1
    push_cast
    ring_nf
  · set w : ℚ := (calculateProductTypeConfidence a : ℚ) * 0.25 +
      (calculateCategoryConfidence a : ℚ) * 0.15 +
      (calculateBrandConfidence a : ℚ) * 0.15 +
      (calculateConditionConfidence a : ℚ) * 0.2 +
      (calculateAttributesConfidence a : ℚ) * 0.15 +
      (calculateVisualQualityConfidence a : ℚ) * 0.1 with hw
    have h1 : calculateOverallConfidence a = ⌊w + 1 / 2⌋ := by
      unfold calculateOverallConfidence jsRound
      rw [hw]
    have h2 : (⌊w + 1 / 2⌋ : ℚ) ≤ w + 1 / 2 := Int.floor_le _
    have h3 : w + 1 / 2 < (⌊w + 1 / 2⌋ : ℚ) + 1 := Int.lt_floor_add_one _
    rw [h1, abs_le]
    constructor <;> linarith

/-- Claim C3: merging with an empty user-details record leaves every
tracked field sourced from the AI and unchanged, under every option set. -/
theorem claim_C3_merge_empty_user (a : ProductAnalysis) (opts : MergeOptions) :
    (mergeProductData a {} opts).dataSources =
      { productType := DataSource.ai, brand := DataSource.ai, condition := DataSource.ai,
        attributes := DataSource.ai, description := DataSource.ai,
        title := DataSource.ai } ∧
    (mergeProductData a {} opts).productType = a.productType ∧
    (mergeProductData a {} opts).brand = a.brand ∧
    (mergeProductData a {} opts).condition = a.condition ∧
    (mergeProductData a {} opts).attributes = a.attributes ∧
    (mergeProductData a {} opts).description = a.description ∧
    (mergeProductData a {} opts).suggestedTitle = a.suggestedTitle := by
  by_cases h : opts.validateCompleteness.getD true = true <;>
    simp [mergeProductData, h, truthyS]

theorem mem_dedupFirstAux (k : String) :
    ∀ (l seen : List String), k ∈ dedupFirstAux seen l ↔ (k ∈ l ∧ k ∉ seen)
  | [], seen => by simp [dedupFirstAux]
  | x :: xs, seen => by
    by_cases hx : x ∈ seen
    · rw [show dedupFirstAux seen (x :: xs) = dedupFirstAux seen xs by
        simp [dedupFirstAux, hx]]
      rw [mem_dedupFirstAux k xs seen]
      simp only [List.mem_cons]
      constructor
      · rintro ⟨h1, h2⟩
        exact ⟨Or.inr h1, h2⟩
      · rintro ⟨h1, h2⟩
        rcases h1 with rfl | h1
        · exact absurd hx h2
        · exact ⟨h1, h2⟩
    · rw [show dedupFirstAux seen (x :: xs) = x :: dedupFirstAux (x :: seen) xs by
        simp [dedupFirstAux, hx]]
      simp only [List.mem_cons, mem_dedupFirstAux k xs (x :: seen)]
      constructor
      · rintro (rfl | ⟨h1, h2⟩)
        · exact ⟨Or.inl rfl, hx⟩
        · refine ⟨Or.inr h1, fun hk => h2 (by simp [hk])⟩
      · rintro ⟨rfl | h1, h2⟩
        · exact Or.inl rfl
        · by_cases hkx : k = x
          · exact Or.inl hkx
          · exact Or.inr ⟨h1, by simp [hkx, h2]⟩

theorem sublist_dedupFirstAux :
    ∀ (l seen : List String), List.Sublist (dedupFirstAux seen l) l
  | [], _ => by simp [dedupFirstAux]
  | x :: xs, seen => by
    by_cases hx : x ∈ seen
    · rw [show dedupFirstAux seen (x :: xs) = dedupFirstAux seen xs by
        simp [dedupFirstAux, hx]]
      exact List.Sublist.trans (sublist_dedupFirstAux xs seen) (List.sublist_cons_self x xs)
    · rw [show dedupFirstAux seen (x :: xs) = x :: dedupFirstAux (x :: seen) xs by
        simp [dedupFirstAux, hx]]
      exact List.Sublist.cons₂ x (sublist_dedupFirstAux xs (x :: seen))

theorem nodup_dedupFirstAux :
    ∀ (l seen : List String), (dedupFirstAux seen l).Nodup
  | [], _ => by simp [dedupFirstAux]
  | x :: xs, seen => by
    by_cases hx : x ∈ seen
    · rw [show dedupFirstAux seen (x :: xs) = dedupFirstAux seen xs by
        simp [dedupFirstAux, hx]]
      exact nodup_dedupFirstAux xs seen
    · rw [show dedupFirstAux seen (x :: xs) = x :: dedupFirstAux (x :: seen) xs by
        simp [dedupFirstAux, hx]]
      refine List.Nodup.cons ?_ (nodup_dedupFirstAux xs (x :: seen))
      intro hmem
      exact ((mem_dedupFirstAux x xs (x :: seen)).1 hmem).2 (by simp)

/-- The merged keyword list is exactly the de-duplication of the AI
keywords followed by the user keywords. -/
theorem merge_suggestedKeywords_eq (a : ProductAnalysis) (u : UserProvidedDetails)
    (opts : MergeOptions) :
    (mergeProductData a u opts).suggestedKeywords =
      dedupFirst (a.suggestedKeywords ++ u.customKeywords.getD []) := by
  by_cases h : opts.validateCompleteness.getD true = true <;>
    simp [mergeProductData, h]

theorem filter_ne_filter_not_mem (x : String) (seen xs : List String) :
    (xs.filter (fun y => y ∉ seen)).filter (fun y => y ≠ x) =
      xs.filter (fun y => y ∉ x :: seen) := by
  induction xs with
  | nil => rfl
  | cons a t ih =>
    by_cases h1 : a ∈ seen
    · have h2 : a ∈ x :: seen := List.mem_cons_of_mem x h1
      simp only [List.filter_cons]
      simp [h1, h2, ih]
    · by_cases h2 : a = x
      · subst h2
        simp only [List.filter_cons]
        simp [h1, ih]
      · have h3 : a ∉ x :: seen := by simp [List.mem_cons, h1, h2]
        simp only [List.filter_cons]
        simp [h1, h2, h3, ih]

/-- The source-mirroring Set spread agrees with the spec-side
first-occurrence de-duplication. -/
theorem dedupFirstAux_eq_keepFirstOccurrence :
    ∀ (l seen : List String),
      dedupFirstAux seen l = keepFirstOccurrence (l.filter (fun y => y ∉ seen))
  | [], seen => by simp [dedupFirstAux, keepFirstOccurrence]
  | x :: xs, seen => by
    by_cases hx : x ∈ seen
    · rw [show dedupFirstAux seen (x :: xs) = dedupFirstAux seen xs by
        simp [dedupFirstAux, hx]]
      rw [dedupFirstAux_eq_keepFirstOccurrence xs seen]
      congr 1
      simp [List.filter_cons, hx]
    · rw [show dedupFirstAux seen (x :: xs) = x :: dedupFirstAux (x :: seen) xs by
        simp [dedupFirstAux, hx]]
      rw [show (x :: xs).filter (fun y => y ∉ seen) =
            x :: xs.filter (fun y => y ∉ seen) by simp [List.filter_cons, hx]]
      rw [keepFirstOccurrence]
      rw [dedupFirstAux_eq_keepFirstOccurrence xs (x :: seen)]
      rw [filter_ne_filter_not_mem]

theorem dedupFirst_eq_keepFirstOccurrence (l : List String) :
    dedupFirst l = keepFirstOccurrence l := by
  rw [dedupFirst, dedupFirstAux_eq_keepFirstOccurrence]
  congr 1
  simp

/-- Claim C4: the merged keyword list is the AI keywords followed by the
user keywords, de-duplicated keeping the first occurrence of each keyword:
it equals the spec-side first-occurrence de-duplication of the
concatenation, has no duplicates, is an order-preserving sublist of the
concatenation, and contains exactly the keywords of the concatenation; on
AI keywords iPhone, Apple and user keywords smartphone, iPhone the result
is exactly the list iPhone, Apple, smartphone, each appearing once. -/
theorem claim_C4_merge_keywords (a : ProductAnalysis) (u : UserProvidedDetails)
    (opts : MergeOptions) :
    ((mergeProductData a u opts).suggestedKeywords =
      keepFirstOccurrence (a.suggestedKeywords ++ u.customKeywords.getD [])) ∧
    ((mergeProductData a u opts).suggestedKeywords).Nodup ∧
    List.Sublist (mergeProductData a u opts).suggestedKeywords
      (a.suggestedKeywords ++ u.customKeywords.getD []) ∧
    (∀ k, k ∈ (mergeProductData a u opts).suggestedKeywords ↔
      k ∈ a.suggestedKeywords ++ u.customKeywords.getD []) ∧
    ((mergeProductData baseAnalysis
        { customKeywords := some ["smartphone", "iPhone"] } {}).suggestedKeywords =
        ["iPhone", "Apple", "smartphone"] ∧
     (mergeProductData baseAnalysis
        { customKeywords := some ["smartphone", "iPhone"] } {}).suggestedKeywords.count
        "iPhone" = 1 ∧
     (mergeProductData baseAnalysis
        { customKeywords := some ["smartphone", "iPhone"] } {}).suggestedKeywords.count
        "Apple" = 1 ∧
     (mergeProductData baseAnalysis
        { customKeywords := some ["smartphone", "iPhone"] } {}).suggestedKeywords.count
        "smartphone" = 1) := by
  rw [merge_suggestedKeywords_eq]
  refine ⟨dedupFirst_eq_keepFirstOccurrence _, nodup_dedupFirstAux _ [],
    sublist_dedupFirstAux _ [], fun k => ?_, ?_⟩
  · rw [dedupFirst, mem_dedupFirstAux]
    simp
  · rw [show (mergeProductData baseAnalysis
        { customKeywords := some ["smartphone", "iPhone"] } {}).suggestedKeywords =
          ["iPhone", "Apple", "smartphone"] from rfl]
    refine ⟨rfl, rfl, rfl, rfl⟩

/-- Witness for C4: in the concrete merge the keyword smartphone is in
the result, obtained through the membership characterization. -/
theorem claim_C4_merge_keywords_witness :
    "smartphone" ∈ (mergeProductData baseAnalysis
      { customKeywords := some ["smartphone", "iPhone"] } {}).suggestedKeywords :=
  ((claim_C4_merge_keywords baseAnalysis
      { customKeywords := some ["smartphone", "iPhone"] } {}).2.2.2.1 "smartphone").2
    (by decide)

/-- Claim C5 as stated is false: with `prioritizeUser := false` a
user-supplied condition does not force the merged condition confidence to
HIGH; here it stays at the AI value MEDIUM. -/
theorem claim_C5_counterexample :
    truthyS ({ condition := some ProductCondition.EXCELLENT : UserProvidedDetails }).condition
      = true ∧
    (mergeProductData baseAnalysis { condition := some ProductCondition.EXCELLENT }
      { prioritizeUser := some false }).conditionConfidence ≠ ConfidenceLevel.HIGH := by
  refine ⟨rfl, ?_⟩
  decide

/-- Claim C5, amended: whenever the merge prioritizes user data (the
default) and the user supplies a condition, the merged condition
confidence is HIGH. -/
theorem claim_C5_user_condition_high (a : ProductAnalysis) (u : UserProvidedDetails)
    (opts : MergeOptions) (hp : opts.prioritizeUser.getD true = true)
    (hc : truthyS u.condition = true) :
    (mergeProductData a u opts).conditionConfidence = ConfidenceLevel.HIGH := by
  by_cases h : opts.validateCompleteness.getD true = true <;>
    simp [mergeProductData, h, hp, hc]

/-- Witness for the amended C5 at concrete inputs with default options. -/
theorem claim_C5_user_condition_high_witness :
    (mergeProductData baseAnalysis { condition := some ProductCondition.EXCELLENT }
      {}).conditionConfidence = ConfidenceLevel.HIGH :=
  claim_C5_user_condition_high baseAnalysis
    { condition := some ProductCondition.EXCELLENT } {} rfl rfl

/-- Claim C6 as stated is false: with `prioritizeUser := false` and a
user-supplied brand, the brand provenance stays at ai when the AI
analysis identified no brand. -/
theorem claim_C6_counterexample :
    truthyS ({ brand := some "Apple" : UserProvidedDetails }).brand = true ∧
    ({ baseAnalysis with brand := none } : ProductAnalysis).brand = none ∧
    (mergeProductData { baseAnalysis with brand := none } { brand := some "Apple" }
      { prioritizeUser := some false }).dataSources.brand ≠ DataSource.merged := by
  refine ⟨rfl, rfl, ?_⟩
  decide

/-- Claim C6, amended: with `prioritizeUser = false`, a user-supplied
brand and an AI-identified brand, the brand provenance is merged. -/
theorem claim_C6_user_brand_merged (a : ProductAnalysis) (u : UserProvidedDetails)
    (opts : MergeOptions) (hp : opts.prioritizeUser.getD true = false)
    (hb : truthyS u.brand = true) (hab : a.brand.isSome = true) :
    (mergeProductData a u opts).dataSources.brand = DataSource.merged := by
  by_cases h : opts.validateCompleteness.getD true = true <;>
    simp [mergeProductData, h, hp, hb, hab]

/-- Witness for the amended C6 at concrete inputs. -/
theorem claim_C6_user_brand_merged_witness :
    (mergeProductData baseAnalysis { brand := some "Apple" }
      { prioritizeUser := some false }).dataSources.brand = DataSource.merged :=
  claim_C6_user_brand_merged baseAnalysis { brand := some "Apple" }
    { prioritizeUser := some false } rfl rfl rfl

theorem isEmpty_false_of_mem {α : Type} {x : α} {l : List α} (h : x ∈ l) :
    l.isEmpty = false := by
  cases l with
  | nil => cases h
  | cons a t => rfl

theorem validateUserInput_valid_false {y : Int} {d : UserProvidedDetails} {e : String}
    (h : e ∈ (validateUserInput y d).errors) : (validateUserInput y d).valid = false :=
  isEmpty_false_of_mem h

theorem truthyS_none : truthyS none = false := rfl

theorem truthyS_some {s : String} (h : s ≠ "") : truthyS (some s) = true := by
  cases hE : s.isEmpty with
  | false => simp [truthyS, hE]
  | true => exact absurd ((String.isEmpty_iff s).1 hE) h

/-- Claim C7 as stated is false at one input: a supplied empty-string
condition is not a valid ProductCondition value, yet the truthiness guard
skips the check and no error is reported. -/
theorem claim_C7_counterexample :
    productConditionValues.contains "" = false ∧
    (validateUserInput 2026 { condition := some "" }).valid = true ∧
    (validateUserInput 2026 { condition := some "" }).errors = [] := by
  refine ⟨by decide, by decide, by decide⟩

/-- Claim C7, amended: validateUserInput returns valid iff no errors; each
oversize field and each supplied non-empty invalid condition yields an
invalid result; an out-of-range parseable year yields an invalid result;
and when only a parseable year is supplied the result is invalid exactly
when the year is outside [1800, currentYear + 1]. -/
theorem claim_C7_validateUserInput (y : Int) (d : UserProvidedDetails) :
    ((validateUserInput y d).valid = true ↔ (validateUserInput y d).errors = []) ∧
    (∀ s, d.brand = some s → 100 < s.length → (validateUserInput y d).valid = false) ∧
    (∀ s, d.model = some s → 100 < s.length → (validateUserInput y d).valid = false) ∧
    (∀ s, d.productType = some s → 200 < s.length →
      (validateUserInput y d).valid = false) ∧
    (∀ s, d.description = some s → 5000 < s.length →
      (validateUserInput y d).valid = false) ∧
    (∀ s, d.customTitle = some s → 200 < s.length →
      (validateUserInput y d).valid = false) ∧
    (∀ l, d.color = some l → 10 < l.length → (validateUserInput y d).valid = false) ∧
    (∀ l, d.material = some l → 10 < l.length → (validateUserInput y d).valid = false) ∧
    (∀ l, d.customKeywords = some l → 20 < l.length →
      (validateUserInput y d).valid = false) ∧
    (∀ c, d.condition = some c → c ≠ "" → productConditionValues.contains c = false →
      (validateUserInput y d).valid = false) ∧
    (∀ s n, d.year = some s → jsParseInt s = some n → (n < 1800 ∨ y + 1 < n) →
      (validateUserInput y d).valid = false) ∧
    (∀ s n, jsParseInt s = some n →
      ((validateUserInput y { year := some s }).valid = false ↔
        (n < 1800 ∨ y + 1 < n))) := by
  refine ⟨List.isEmpty_iff, ?_, ?_, ?_, ?_, ?_, ?_, ?_, ?_, ?_, ?_, ?_⟩
  · intro s hs hlen
    have hne : s ≠ "" := fun h => by rw [h] at hlen; exact absurd hlen (by decide)
    refine validateUserInput_valid_false
      (e := "Brand name must be 100 characters or less") ?_
    simp [validateUserInput, hs, truthyS_some hne, hlen]
  · intro s hs hlen
    have hne : s ≠ "" := fun h => by rw [h] at hlen; exact absurd hlen (by decide)
    refine validateUserInput_valid_false
      (e := "Model must be 100 characters or less") ?_
    simp [validateUserInput, hs, truthyS_some hne, hlen]
  · intro s hs hlen
    have hne : s ≠ "" := fun h => by rw [h] at hlen; exact absurd hlen (by decide)
    refine validateUserInput_valid_false
      (e := "Product type must be 200 characters or less") ?_
    simp [validateUserInput, hs, truthyS_some hne, hlen]
  · intro s hs hlen
    have hne : s ≠ "" := fun h => by rw [h] at hlen; exact absurd hlen (by decide)
    refine validateUserInput_valid_false
      (e := "Description must be 5000 characters or less") ?_
    simp [validateUserInput, hs, truthyS_some hne, hlen]
  · intro s hs hlen
    have hne : s ≠ "" := fun h => by rw [h] at hlen; exact absurd hlen (by decide)
    refine validateUserInput_valid_false
      (e := "Custom title must be 200 characters or less") ?_
    simp [validateUserInput, hs, truthyS_some hne, hlen]
  · intro l hs hlen
    refine validateUserInput_valid_false (e := "Maximum 10 colors allowed") ?_
    simp [validateUserInput, hs, hlen]
  · intro l hs hlen
    refine validateUserInput_valid_false (e := "Maximum 10 materials allowed") ?_
    simp [validateUserInput, hs, hlen]
  · intro l hs hlen
    refine validateUserInput_valid_false (e := "Maximum 20 custom keywords allowed") ?_
    simp [validateUserInput, hs, hlen]
  · intro c hs hne hcon
    have hcon2 : c ∉ productConditionValues := by simpa using hcon
    refine validateUserInput_valid_false
      (e := "Invalid condition value. Must be one of: " ++
        String.intercalate ", " productConditionValues) ?_
    simp [validateUserInput, hs, truthyS_some hne, hcon2]
  · intro s n hs hp hout
    have hne : s ≠ "" := fun h => by
      rw [h] at hp
      exact Option.noConfusion hp
    refine validateUserInput_valid_false
      (e := "Invalid year. Must be between 1800 and " ++ toString (y + 1)) ?_
    rcases hout with h | h <;> simp [validateUserInput, hs, truthyS_some hne, hp, h]
  · intro s n hp
    have hne : s ≠ "" := fun h => by
      rw [h] at hp
      exact Option.noConfusion hp
    by_cases hc : n < 1800 ∨ y + 1 < n
    · rcases hc with h | h <;>
        simp [validateUserInput, truthyS_none, truthyS_some hne, hp, h]
    · rw [not_or] at hc
      simp [validateUserInput, truthyS_none, truthyS_some hne, hp, hc.1, hc.2]

/-- A brand name of 101 characters. -/
def longBrand : String := String.mk (List.replicate 101 'a')

/-- Witness for the amended C7: a 101-character brand is rejected. -/
theorem claim_C7_validateUserInput_witness :
    (validateUserInput 2026 { brand := some longBrand }).valid = false :=
  (claim_C7_validateUserInput 2026 { brand := some longBrand }).2.1 longBrand rfl
    (by decide)

/-- Claim C9: enrichment is a pure frame extension: the returned record
agrees with the input analysis on all fourteen ProductAnalysis fields for
every cache state and every option set; only `enrichmentData` is added. -/
theorem claim_C9_enrich_frame (cache : List (String × ProductDatabaseEntry))
    (a : ProductAnalysis) (opts : EnrichmentOptions) :
    (enrichProductAnalysis cache a opts).productType = a.productType ∧
    (enrichProductAnalysis cache a opts).category = a.category ∧
    (enrichProductAnalysis cache a opts).brand = a.brand ∧
    (enrichProductAnalysis cache a opts).condition = a.condition ∧
    (enrichProductAnalysis cache a opts).conditionConfidence = a.conditionConfidence ∧
    (enrichProductAnalysis cache a opts).attributes = a.attributes ∧
    (enrichProductAnalysis cache a opts).extractedText = a.extractedText ∧
    (enrichProductAnalysis cache a opts).features = a.features ∧
    (enrichProductAnalysis cache a opts).defects = a.defects ∧
    (enrichProductAnalysis cache a opts).visualQuality = a.visualQuality ∧
    (enrichProductAnalysis cache a opts).description = a.description ∧
    (enrichProductAnalysis cache a opts).suggestedTitle = a.suggestedTitle ∧
    (enrichProductAnalysis cache a opts).suggestedKeywords = a.suggestedKeywords ∧
    (enrichProductAnalysis cache a opts).overallConfidence = a.overallConfidence ∧
    (enrichProductAnalysis cache a opts).analysisTimestamp = a.analysisTimestamp :=
  ⟨rfl, rfl, rfl, rfl, rfl, rfl, rfl, rfl, rfl, rfl, rfl, rfl, rfl, rfl, rfl⟩

/-- The characters held by a scanner state. -/
def stateChars : SplitState → List Char
  | SplitState.inText cur => cur
  | SplitState.inPunct cur p => cur ++ p
  | SplitState.inWs cur p w => cur ++ p ++ w

theorem splitStep_chars (st : SplitState) (c : Char) :
    (splitStep st c).1.flatten ++ stateChars (splitStep st c).2 =
      stateChars st ++ [c] := by
  cases st <;> simp only [splitStep] <;> split_ifs <;>
    simp [stateChars, List.append_assoc]

theorem splitRun_flatten : ∀ (cs : List Char) (st : SplitState),
    (splitRun st cs).flatten = stateChars st ++ cs
  | [], st => by cases st <;> simp [splitRun, splitFinish, stateChars]
  | c :: rest, st => by
    have h1 := splitStep_chars st c
    calc (splitRun st (c :: rest)).flatten
        = (splitStep st c).1.flatten ++ (splitRun (splitStep st c).2 rest).flatten := by
          simp [splitRun]
      _ = (splitStep st c).1.flatten ++ (stateChars (splitStep st c).2 ++ rest) := by
          rw [splitRun_flatten rest]
      _ = ((splitStep st c).1.flatten ++ stateChars (splitStep st c).2) ++ rest := by
          rw [List.append_assoc]
      _ = stateChars st ++ c :: rest := by rw [h1]; simp

/-- With a zero interval the distribution loop only concatenates the
segments: `index % 0` is `index`, which is never zero at the guarded
positive indices (in JS the test compares NaN and is likewise false). -/
theorem distAux_zero_interval (emojis : List String) :
    ∀ (segs : List String) (index emojiIndex : Nat),
      distAux emojis 0 segs index emojiIndex = segs.foldr (fun a b => a ++ b) ""
  | [], _, _ => rfl
  | s :: rest, index, emojiIndex => by
    have hcond : ¬(emojiIndex < emojis.length ∧ 0 < index ∧ index % 0 = 0) := by
      rintro ⟨-, h1, h2⟩
      rw [Nat.mod_zero] at h2
      omega
    simp only [distAux, if_neg hcond, List.foldr_cons,
      distAux_zero_interval emojis rest (index + 1) emojiIndex]

theorem foldr_append_map_mk (l : List (List Char)) :
    (l.map String.mk).foldr (fun a b => a ++ b) "" = String.mk l.flatten := by
  induction l with
  | nil => rfl
  | cons a t ih => simp only [List.map_cons, List.foldr_cons, ih]; rfl

/-- Claim C10: with a non-empty emoji list longer than the sentence
segment list (so the computed interval is zero), the distributed strategy
is total and returns the trimmed input text with no emoji inserted. -/
theorem claim_C10_distributed_interval_zero (text : String) (emojis : List String)
    (hne : emojis ≠ []) (hlen : (sentenceSplit text).length < emojis.length) :
    insertEmojis text emojis InsertStrategy.distributed = jsTrim text := by
  have hlen0 : ¬(emojis.length = 0) := by
    intro h
    exact hne (List.eq_nil_of_length_eq_zero h)
  have hint : (sentenceSplit text).length / emojis.length = 0 := Nat.div_eq_of_lt hlen
  unfold insertEmojis
  rw [if_neg hlen0]
  show jsTrim (distAux emojis ((sentenceSplit text).length / emojis.length)
    (sentenceSplit text) 0 0) = jsTrim text
  rw [hint, distAux_zero_interval]
  unfold sentenceSplit
  rw [foldr_append_map_mk, splitRun_flatten]
  rfl

/-- Witness for C10: four emojis against the two-sentence text. -/
theorem claim_C10_distributed_interval_zero_witness :
    (["a", "b", "c", "d"] : List String) ≠ [] ∧
    (sentenceSplit "Hi. Bye").length < 4 ∧
    insertEmojis "Hi. Bye" ["a", "b", "c", "d"] InsertStrategy.distributed =
      jsTrim "Hi. Bye" :=
  ⟨by decide, by decide,
   claim_C10_distributed_interval_zero "Hi. Bye" ["a", "b", "c", "d"]
     (by decide) (by decide)⟩
